import Mathlib

/-!
Verification of the prompt-enhancer script (`src/app.py`).

Strings are embedded as `List Char`.  Python operations used by the script
are modelled character-for-character:

* `str.lower()`  →  `pyLower` (the script only tests for the ASCII word
  "assumption", on which `Char.toLower` agrees with Python);
* `str.rstrip()` →  `pyRstrip` (strips the full Unicode whitespace class of
  CPython, `isPySpace`, from the right);
* `needle in hay` (substring test) → `hasSubstr`;
* slicing `s[:n]` → `List.take n` (all slice bounds in the script are
  non-negative because `max_output_chars ≥ 400`);
* `html.escape` with its default `quote=True` → `html_escape`
  (Python replaces `&` first, then the other four characters, so the
  sequential replacement coincides with the character-wise map);
* the Python dict literal `{"enhanced_prompt": improved}` → a one-entry
  association list.

The Streamlit button handler (lines 110-140 of `app.py`) is embedded as
`button_handler`, parameterised by the remote call `api`, which returns
`Except` (an exception) or `Option` (the `output_text` attribute, which may
be missing/`None`); `getattr(resp, "output_text", None) or ""` is
`out.getD []` since both `None` and the empty string collapse to `""`.
-/

/-- Prefix test: `leadsWith p s` is Python/`List` prefix test: `p` is a prefix of `s`. -/
def leadsWith : List Char → List Char → Bool
  | [], _ => true
  | _ :: _, [] => false
  | a :: as, b :: bs => a = b && leadsWith as bs

/-- Substring test: `hasSubstr needle hay` embeds the Python substring test `needle in hay`. -/
def hasSubstr (needle : List Char) : List Char → Bool
  | [] => decide (needle = [])
  | c :: t => leadsWith needle (c :: t) || hasSubstr needle t

/-- The whitespace class of Python no-argument `str.rstrip()`: the Unicode
whitespace codepoints U+0009-U+000D, U+001C-U+001F, U+0020, U+0085, U+00A0,
U+1680, U+2000-U+200A, U+2028, U+2029, U+202F, U+205F and U+3000 (exactly
the 29 codepoints CPython strips). -/
def isPySpace (c : Char) : Bool :=
  (0x09 ≤ c.toNat && c.toNat ≤ 0x0D) || c.toNat = 0x20 ||
  (0x1C ≤ c.toNat && c.toNat ≤ 0x1F) || c.toNat = 0x85 || c.toNat = 0xA0 ||
  c.toNat = 0x1680 || (0x2000 ≤ c.toNat && c.toNat ≤ 0x200A) ||
  c.toNat = 0x2028 || c.toNat = 0x2029 || c.toNat = 0x202F || c.toNat = 0x205F ||
  c.toNat = 0x3000

/-- Python `str.rstrip()`: drop trailing whitespace. -/
def pyRstrip (s : List Char) : List Char :=
  (s.reverse.dropWhile isPySpace).reverse

/-- Python `str.lower()` (ASCII fragment, which covers the script's use). -/
def pyLower (s : List Char) : List Char :=
  s.map Char.toLower

/-- The constant `ASSUMPTIONS_LINE` of `app.py` (lines 81-83). -/
def ASSUMPTIONS_LINE : List Char :=
  "Before responding, explicitly list any assumptions, identify missing information, and ask clarifying questions as needed.".data

/-- The function `ensure_assumptions_clause` of `app.py` (lines 92-97):
`if not text: return text`; append the clause when `"assumption"` is not a
substring of `text.lower()`; otherwise return `text` unchanged. -/
def ensure_assumptions_clause (text : List Char) : List Char :=
  if text = [] then text
  else if !hasSubstr "assumption".data (pyLower text) then
    pyRstrip text ++ "\n\nAssumptions & Clarifications:\n- ".data ++ ASSUMPTIONS_LINE
  else text

/-- The truncation step of the button handler (`app.py` lines 136-137):
`if len(improved) > max_output_chars: improved = improved[: max_output_chars - 3].rstrip() + "..."`. -/
def truncate_to_max (maxChars : Nat) (s : List Char) : List Char :=
  if s.length > maxChars then pyRstrip (s.take (maxChars - 3)) ++ "...".data else s

/-- The double-quote character, `"`. -/
def quoteChar : Char := Char.ofNat 34

/-- The apostrophe character. -/
def apostropheChar : Char := Char.ofNat 39

/-- One character of Python `html.escape(s)` with the default `quote=True`. -/
def escapeChar (c : Char) : List Char :=
  if c = '&' then "&amp;".data
  else if c = '<' then "&lt;".data
  else if c = '>' then "&gt;".data
  else if c = quoteChar then "&quot;".data
  else if c = apostropheChar then "&#x27;".data
  else [c]

/-- Python `html.escape` (default `quote=True`), as used in `to_xml`. -/
def html_escape : List Char → List Char
  | [] => []
  | c :: cs => escapeChar c ++ html_escape cs

/-- The function `to_xml` of `app.py` (lines 100-101). -/
def to_xml (improved_prompt : List Char) : List Char :=
  "<enhancedPrompt>\n".data ++ html_escape improved_prompt ++ "\n</enhancedPrompt>".data

/-- The function `to_json` of `app.py` (lines 104-105): the dict `{"enhanced_prompt": improved_prompt}`
as a one-entry association list. -/
def to_json (improved_prompt : List Char) : List (List Char × List Char) :=
  [("enhanced_prompt".data, improved_prompt)]

/-- The string `base_prompt` of the button handler (`app.py` line 118):
`f"Role: {role}\nContext: {context}\nTask: {task}"`. -/
def base_prompt (role context task : List Char) : List Char :=
  "Role: ".data ++ role ++ "\nContext: ".data ++ context ++ "\nTask: ".data ++ task

/-- Outcome of one click of the Generate button. -/
inductive HandlerResult where
  | validationError : List Char → HandlerResult
  | apiError : List Char → HandlerResult
  | success : (plain : List Char) → (xml : List Char) →
      (json : List (List Char × List Char)) → HandlerResult
  deriving DecidableEq

/-- The button handler of `app.py` (lines 110-140).  `api` is the remote
call `client.responses.create(...)`: `Except.error e` models a raised
exception with message `e`, `Except.ok out` a response whose `output_text`
attribute is `out` (`none` models a missing attribute / `None`). -/
def button_handler (api_key role context task : List Char) (maxChars : Nat)
    (api : List Char → Except (List Char) (Option (List Char))) : HandlerResult :=
  if api_key = [] then
    HandlerResult.validationError "Please paste your OpenAI API key in the sidebar.".data
  else if role = [] ∧ context = [] ∧ task = [] then
    HandlerResult.validationError "Please provide Role, Context, or Task.".data
  else
    match api (base_prompt role context task) with
    | Except.error e => HandlerResult.apiError ("OpenAI API error: ".data ++ e)
    | Except.ok out =>
        let improved := truncate_to_max maxChars (ensure_assumptions_clause (out.getD []))
        HandlerResult.success improved (to_xml improved) (to_json improved)

/-- Claim C9: `ensure_assumptions_clause` applied to the empty string returns the
empty string, even though the empty string lacks the substring "assumption". -/
theorem claim_C9 :
    ensure_assumptions_clause [] = [] ∧
    hasSubstr "assumption".data (pyLower []) = false := by
  decide

theorem pyRstrip_length_le (s : List Char) : (pyRstrip s).length ≤ s.length := by
  unfold pyRstrip
  calc (s.reverse.dropWhile isPySpace).reverse.length
      = (s.reverse.dropWhile isPySpace).length := List.length_reverse _
    _ ≤ s.reverse.length := (List.dropWhile_sublist isPySpace).length_le
    _ = s.length := List.length_reverse _

/-- Claim C1 (amended to non-empty input): for every non-empty string, if it lacks
the substring "assumption" case-insensitively, `ensure_assumptions_clause`
appends the fixed clause to the right-stripped text; if the substring is
present, the string is returned unmodified. -/
theorem claim_C1 (s : List Char) (hne : s ≠ []) :
    (hasSubstr "assumption".data (pyLower s) = false →
      ensure_assumptions_clause s =
        pyRstrip s ++ "\n\nAssumptions & Clarifications:\n- ".data ++ ASSUMPTIONS_LINE) ∧
    (hasSubstr "assumption".data (pyLower s) = true →
      ensure_assumptions_clause s = s) := by
  unfold ensure_assumptions_clause
  rw [if_neg hne]
  constructor <;> intro h <;> simp [h]

/-- Witness for `C1` at the concrete input "hi". -/
theorem claim_C1_witness :
    ensure_assumptions_clause "hi".data =
      pyRstrip "hi".data ++ "\n\nAssumptions & Clarifications:\n- ".data ++ ASSUMPTIONS_LINE :=
  (claim_C1 "hi".data (by decide)).1 (by decide)

/-- Claim C1 as stated is false at the empty string: the empty string lacks the
substring "assumption", yet `ensure_assumptions_clause` does not append the
clause (it returns the empty string unchanged). -/
theorem claim_C1_counterexample :
    hasSubstr "assumption".data (pyLower []) = false ∧
    ensure_assumptions_clause [] ≠
      pyRstrip [] ++ "\n\nAssumptions & Clarifications:\n- ".data ++ ASSUMPTIONS_LINE := by
  decide

/-- Claim C2: for every text and every configured maximum between 400 and 10000,
the truncation step yields a text of length at most the maximum. -/
theorem claim_C2 (s : List Char) (maxChars : Nat)
    (h1 : 400 ≤ maxChars) (h2 : maxChars ≤ 10000) :
    (truncate_to_max maxChars s).length ≤ maxChars := by
  unfold truncate_to_max
  split
  · have hr : (pyRstrip (s.take (maxChars - 3))).length ≤ maxChars - 3 :=
      le_trans (pyRstrip_length_le _) (by simp [List.length_take])
    simp only [List.length_append, List.length_cons, List.length_nil]
    omega
  · omega

/-- Witness for `C2` at the concrete input "ab" with maximum 400. -/
theorem claim_C2_witness : (truncate_to_max 400 "ab".data).length ≤ 400 :=
  claim_C2 "ab".data 400 (by decide) (by decide)

/-- Claim C3 (amended): when the clause-processed text is longer than the
configured maximum, the truncated result is the right-stripped prefix of
`maxChars - 3` characters followed by "...": it ends with the three-character
ellipsis and its length is at most `maxChars`; the length equals `maxChars`
exactly when that prefix has no trailing whitespace (the code right-strips
the prefix before appending the ellipsis, so trailing whitespace makes the
result shorter). -/
theorem claim_C3 (s : List Char) (maxChars : Nat)
    (h1 : 400 ≤ maxChars) (h2 : maxChars ≤ 10000) (h3 : s.length > maxChars) :
    truncate_to_max maxChars s = pyRstrip (s.take (maxChars - 3)) ++ "...".data ∧
    "...".data <:+ truncate_to_max maxChars s ∧
    (truncate_to_max maxChars s).length ≤ maxChars ∧
    (pyRstrip (s.take (maxChars - 3)) = s.take (maxChars - 3) →
      (truncate_to_max maxChars s).length = maxChars) := by
  have he : truncate_to_max maxChars s = pyRstrip (s.take (maxChars - 3)) ++ "...".data := by
    unfold truncate_to_max
    rw [if_pos h3]
  have htake : (s.take (maxChars - 3)).length = maxChars - 3 := by
    simp only [List.length_take]
    omega
  refine ⟨he, ⟨pyRstrip (s.take (maxChars - 3)), he.symm⟩, ?_, ?_⟩
  · have hr := pyRstrip_length_le (s.take (maxChars - 3))
    rw [he]
    simp only [List.length_append, List.length_cons, List.length_nil]
    omega
  · intro hws
    rw [he, hws]
    simp only [List.length_append, List.length_cons, List.length_nil]
    omega

set_option maxRecDepth 20000 in
/-- Witness for `C3` at 401 copies of the character a, with maximum 400. -/
theorem claim_C3_witness :
    truncate_to_max 400 (List.replicate 401 'a') =
      pyRstrip ((List.replicate 401 'a').take 397) ++ "...".data ∧
    "...".data <:+ truncate_to_max 400 (List.replicate 401 'a') ∧
    (truncate_to_max 400 (List.replicate 401 'a')).length ≤ 400 ∧
    (pyRstrip ((List.replicate 401 'a').take 397) = (List.replicate 401 'a').take 397 →
      (truncate_to_max 400 (List.replicate 401 'a')).length = 400) :=
  claim_C3 (List.replicate 401 'a') 400 (by decide) (by decide) (by simp)

set_option maxRecDepth 20000 in
/-- Claim C3 as stated is false: with maximum 400 and a 402-character input whose
397th character is a space, the truncated result ends with "..." but has
length 399, not exactly 400. -/
theorem claim_C3_counterexample :
    (List.replicate 396 'a' ++ ' ' :: List.replicate 5 'b').length > 400 ∧
    (truncate_to_max 400 (List.replicate 396 'a' ++ ' ' :: List.replicate 5 'b')).length ≠ 400 := by
  decide

theorem button_handler_of_valid (api_key role context task : List Char) (maxChars : Nat)
    (api : List Char → Except (List Char) (Option (List Char)))
    (hkey : api_key ≠ []) (hin : role ≠ [] ∨ context ≠ [] ∨ task ≠ []) :
    button_handler api_key role context task maxChars api =
      match api (base_prompt role context task) with
      | Except.error e => HandlerResult.apiError ("OpenAI API error: ".data ++ e)
      | Except.ok out =>
          HandlerResult.success
            (truncate_to_max maxChars (ensure_assumptions_clause (out.getD [])))
            (to_xml (truncate_to_max maxChars (ensure_assumptions_clause (out.getD []))))
            (to_json (truncate_to_max maxChars (ensure_assumptions_clause (out.getD [])))) := by
  unfold button_handler
  rw [if_neg hkey, if_neg (by tauto : ¬(role = [] ∧ context = [] ∧ task = []))]

/-- Claim C4: on the success path (non-empty key, some non-empty input, remote
call returns), the handler is the straight-line composition: the combined
input is Role/Context/Task glued with fixed labels, the clause is appended by
`ensure_assumptions_clause`, the result is truncated, and the plain, XML and
JSON renderings are all produced from that same final text. -/
theorem claim_C4 (api_key role context task : List Char) (maxChars : Nat)
    (api : List Char → Except (List Char) (Option (List Char))) (out : Option (List Char))
    (hkey : api_key ≠ []) (hin : role ≠ [] ∨ context ≠ [] ∨ task ≠ [])
    (hapi : api (base_prompt role context task) = Except.ok out) :
    base_prompt role context task =
      "Role: ".data ++ role ++ "\nContext: ".data ++ context ++ "\nTask: ".data ++ task ∧
    button_handler api_key role context task maxChars api =
      HandlerResult.success
        (truncate_to_max maxChars (ensure_assumptions_clause (out.getD [])))
        (to_xml (truncate_to_max maxChars (ensure_assumptions_clause (out.getD []))))
        (to_json (truncate_to_max maxChars (ensure_assumptions_clause (out.getD [])))) := by
  refine ⟨rfl, ?_⟩
  rw [button_handler_of_valid api_key role context task maxChars api hkey hin, hapi]

/-- Witness for `C4` at concrete inputs. -/
theorem claim_C4_witness :
    base_prompt "r".data [] [] =
      "Role: ".data ++ "r".data ++ "\nContext: ".data ++ [] ++ "\nTask: ".data ++ [] ∧
    button_handler "k".data "r".data [] [] 400 (fun _ => Except.ok (some "assumption".data)) =
      HandlerResult.success
        (truncate_to_max 400 (ensure_assumptions_clause ((some "assumption".data).getD [])))
        (to_xml (truncate_to_max 400 (ensure_assumptions_clause ((some "assumption".data).getD []))))
        (to_json (truncate_to_max 400 (ensure_assumptions_clause ((some "assumption".data).getD [])))) :=
  claim_C4 "k".data "r".data [] [] 400 (fun _ => Except.ok (some "assumption".data))
    (some "assumption".data) (by decide) (Or.inl (by decide)) rfl

/-- Claim C7: an empty API key, or all three inputs empty, stops the handler with
a validation error independently of the remote call; when the key is
non-empty and some input is non-empty, the handler result is exactly
determined by the remote call at the combined prompt, i.e. the call is
reached. -/
theorem claim_C7 (api_key role context task : List Char) (maxChars : Nat) :
    (api_key = [] →
      ∀ api, button_handler api_key role context task maxChars api =
        HandlerResult.validationError "Please paste your OpenAI API key in the sidebar.".data) ∧
    (api_key ≠ [] → role = [] → context = [] → task = [] →
      ∀ api, button_handler api_key role context task maxChars api =
        HandlerResult.validationError "Please provide Role, Context, or Task.".data) ∧
    (api_key ≠ [] → (role ≠ [] ∨ context ≠ [] ∨ task ≠ []) →
      ∀ api, button_handler api_key role context task maxChars api =
        match api (base_prompt role context task) with
        | Except.error e => HandlerResult.apiError ("OpenAI API error: ".data ++ e)
        | Except.ok out =>
            HandlerResult.success
              (truncate_to_max maxChars (ensure_assumptions_clause (out.getD [])))
              (to_xml (truncate_to_max maxChars (ensure_assumptions_clause (out.getD []))))
              (to_json (truncate_to_max maxChars (ensure_assumptions_clause (out.getD []))))) := by
  refine ⟨?_, ?_, ?_⟩
  · intro hk api
    unfold button_handler
    rw [if_pos hk]
  · intro hk h1 h2 h3 api
    unfold button_handler
    rw [if_neg hk, if_pos ⟨h1, h2, h3⟩]
  · intro hk hin api
    exact button_handler_of_valid api_key role context task maxChars api hk hin

/-- Witness for `C7` exercising all three branches at concrete inputs. -/
theorem claim_C7_witness :
    button_handler [] "r".data [] [] 400 (fun _ => Except.ok (some "assumption".data)) =
      HandlerResult.validationError "Please paste your OpenAI API key in the sidebar.".data ∧
    button_handler "k".data [] [] [] 400 (fun _ => Except.ok (some "assumption".data)) =
      HandlerResult.validationError "Please provide Role, Context, or Task.".data ∧
    button_handler "k".data "r".data [] [] 400 (fun _ => Except.ok (some "assumption".data)) =
      HandlerResult.success "assumption".data (to_xml "assumption".data) (to_json "assumption".data) :=
  ⟨(claim_C7 [] "r".data [] [] 400).1 rfl _,
   (claim_C7 "k".data [] [] [] 400).2.1 (by decide) rfl rfl rfl _,
   ((claim_C7 "k".data "r".data [] [] 400).2.2 (by decide) (Or.inl (by decide))
      (fun _ => Except.ok (some "assumption".data))).trans (by decide)⟩

/-- Claim C8: when the remote call raises, the handler surfaces a single message
prefixed "OpenAI API error:" and stops: it never reaches the success
renderings. -/
theorem claim_C8 (api_key role context task : List Char) (maxChars : Nat)
    (api : List Char → Except (List Char) (Option (List Char))) (e : List Char)
    (hkey : api_key ≠ []) (hin : role ≠ [] ∨ context ≠ [] ∨ task ≠ [])
    (hapi : api (base_prompt role context task) = Except.error e) :
    button_handler api_key role context task maxChars api =
      HandlerResult.apiError ("OpenAI API error: ".data ++ e) ∧
    ∀ plain xml js, button_handler api_key role context task maxChars api ≠
      HandlerResult.success plain xml js := by
  have h := button_handler_of_valid api_key role context task maxChars api hkey hin
  rw [hapi] at h
  refine ⟨h, ?_⟩
  intro plain xml js hcontra
  rw [h] at hcontra
  exact HandlerResult.noConfusion hcontra

/-- Witness for `C8` at concrete inputs. -/
theorem claim_C8_witness :
    button_handler "k".data "r".data [] [] 400 (fun _ => Except.error "boom".data) =
      HandlerResult.apiError ("OpenAI API error: ".data ++ "boom".data) ∧
    button_handler "k".data "r".data [] [] 400 (fun _ => Except.error "boom".data) ≠
      HandlerResult.success [] [] [] :=
  ⟨(claim_C8 "k".data "r".data [] [] 400 (fun _ => Except.error "boom".data) "boom".data
      (by decide) (Or.inl (by decide)) rfl).1,
   (claim_C8 "k".data "r".data [] [] 400 (fun _ => Except.error "boom".data) "boom".data
      (by decide) (Or.inl (by decide)) rfl).2 [] [] []⟩

/-- Claim C6: whenever the handler succeeds, its JSON rendering is an object with
exactly one key, "enhanced_prompt", whose value is exactly the final plain
text. -/
theorem claim_C6 (api_key role context task : List Char) (maxChars : Nat)
    (api : List Char → Except (List Char) (Option (List Char)))
    (plain xml : List Char) (js : List (List Char × List Char))
    (h : button_handler api_key role context task maxChars api =
      HandlerResult.success plain xml js) :
    js = [("enhanced_prompt".data, plain)] ∧ js.length = 1 := by
  unfold button_handler at h
  by_cases hk : api_key = []
  · rw [if_pos hk] at h
    exact absurd h (by simp)
  rw [if_neg hk] at h
  by_cases hin : role = [] ∧ context = [] ∧ task = []
  · rw [if_pos hin] at h
    exact absurd h (by simp)
  rw [if_neg hin] at h
  cases hapi : api (base_prompt role context task) with
  | error e =>
      rw [hapi] at h
      exact absurd h (by simp)
  | ok out =>
      rw [hapi] at h
      simp only [HandlerResult.success.injEq] at h
      obtain ⟨h1, h2, h3⟩ := h
      subst h1
      subst h3
      exact ⟨rfl, rfl⟩

/-- Witness for `C6` at concrete inputs. -/
theorem claim_C6_witness :
    to_json "assumption".data = [("enhanced_prompt".data, "assumption".data)] ∧
    (to_json "assumption".data).length = 1 :=
  claim_C6 "k".data "r".data [] [] 400 (fun _ => Except.ok (some "assumption".data))
    "assumption".data (to_xml "assumption".data) (to_json "assumption".data) (by decide)

theorem escapeChar_cases (c : Char) :
    escapeChar c = "&amp;".data ∨ escapeChar c = "&lt;".data ∨ escapeChar c = "&gt;".data ∨
    escapeChar c = "&quot;".data ∨ escapeChar c = "&#x27;".data ∨
    (escapeChar c = [c] ∧ c ≠ '<' ∧ c ≠ '>' ∧ c ≠ quoteChar ∧ c ≠ apostropheChar) := by
  unfold escapeChar
  split
  · exact Or.inl rfl
  split
  · exact Or.inr (Or.inl rfl)
  split
  · exact Or.inr (Or.inr (Or.inl rfl))
  split
  · exact Or.inr (Or.inr (Or.inr (Or.inl rfl)))
  split
  · exact Or.inr (Or.inr (Or.inr (Or.inr (Or.inl rfl))))
  · rename_i h1 h2 h3 h4 h5
    exact Or.inr (Or.inr (Or.inr (Or.inr (Or.inr ⟨rfl, h2, h3, h4, h5⟩))))

theorem escapeChar_no_markup (c d : Char) (hd : d ∈ escapeChar c) :
    d ≠ '<' ∧ d ≠ '>' ∧ d ≠ quoteChar ∧ d ≠ apostropheChar := by
  rcases escapeChar_cases c with h | h | h | h | h | ⟨h, h1, h2, h3, h4⟩ <;> rw [h] at hd
  · exact (show ∀ x ∈ "&amp;".data,
      x ≠ '<' ∧ x ≠ '>' ∧ x ≠ quoteChar ∧ x ≠ apostropheChar by decide) d hd
  · exact (show ∀ x ∈ "&lt;".data,
      x ≠ '<' ∧ x ≠ '>' ∧ x ≠ quoteChar ∧ x ≠ apostropheChar by decide) d hd
  · exact (show ∀ x ∈ "&gt;".data,
      x ≠ '<' ∧ x ≠ '>' ∧ x ≠ quoteChar ∧ x ≠ apostropheChar by decide) d hd
  · exact (show ∀ x ∈ "&quot;".data,
      x ≠ '<' ∧ x ≠ '>' ∧ x ≠ quoteChar ∧ x ≠ apostropheChar by decide) d hd
  · exact (show ∀ x ∈ "&#x27;".data,
      x ≠ '<' ∧ x ≠ '>' ∧ x ≠ quoteChar ∧ x ≠ apostropheChar by decide) d hd
  · rw [List.mem_singleton] at hd
    subst hd
    exact ⟨h1, h2, h3, h4⟩

theorem escapeChar_eq_self (c : Char)
    (h : c ≠ '&' ∧ c ≠ '<' ∧ c ≠ '>' ∧ c ≠ quoteChar ∧ c ≠ apostropheChar) :
    escapeChar c = [c] := by
  unfold escapeChar
  rw [if_neg h.1, if_neg h.2.1, if_neg h.2.2.1, if_neg h.2.2.2.1, if_neg h.2.2.2.2]

theorem html_escape_no_markup (p : List Char) :
    ∀ d ∈ html_escape p, d ≠ '<' ∧ d ≠ '>' ∧ d ≠ quoteChar ∧ d ≠ apostropheChar := by
  induction p with
  | nil =>
      intro d hd
      simp [html_escape] at hd
  | cons c cs ih =>
      intro d hd
      simp only [html_escape, List.mem_append] at hd
      rcases hd with hd | hd
      · exact escapeChar_no_markup c d hd
      · exact ih d hd

theorem html_escape_eq_self (p : List Char)
    (h : ∀ c ∈ p, c ≠ '&' ∧ c ≠ '<' ∧ c ≠ '>' ∧ c ≠ quoteChar ∧ c ≠ apostropheChar) :
    html_escape p = p := by
  induction p with
  | nil => rfl
  | cons c cs ih =>
      show escapeChar c ++ html_escape cs = c :: cs
      rw [escapeChar_eq_self c (h c (List.mem_cons_self c cs)),
        ih (fun x hx => h x (List.mem_cons_of_mem c hx))]
      rfl

/-- Claim C5: `to_xml` wraps the escaped text in exactly one fixed element with a
newline after the opening tag and before the closing tag; the escaping maps
each of the five reserved characters to its HTML escape sequence, leaves a
text free of them unchanged, and its output never contains a raw `<`, `>`,
double quote or apostrophe. -/
theorem claim_C5 (p : List Char) :
    to_xml p = "<enhancedPrompt>\n".data ++ html_escape p ++ "\n</enhancedPrompt>".data ∧
    html_escape ['&'] = "&amp;".data ∧
    html_escape ['<'] = "&lt;".data ∧
    html_escape ['>'] = "&gt;".data ∧
    html_escape [quoteChar] = "&quot;".data ∧
    html_escape [apostropheChar] = "&#x27;".data ∧
    (∀ d ∈ html_escape p, d ≠ '<' ∧ d ≠ '>' ∧ d ≠ quoteChar ∧ d ≠ apostropheChar) ∧
    ((∀ c ∈ p, c ≠ '&' ∧ c ≠ '<' ∧ c ≠ '>' ∧ c ≠ quoteChar ∧ c ≠ apostropheChar) →
      html_escape p = p) :=
  ⟨rfl, by decide, by decide, by decide, by decide, by decide,
   html_escape_no_markup p, html_escape_eq_self p⟩

/-- Witness for `C5` at the concrete input "a<b". -/
theorem claim_C5_witness :
    to_xml "a<b".data =
      "<enhancedPrompt>\n".data ++ html_escape "a<b".data ++ "\n</enhancedPrompt>".data ∧
    html_escape "ok".data = "ok".data :=
  ⟨(claim_C5 "a<b".data).1, (claim_C5 "ok".data).2.2.2.2.2.2.2 (by decide)⟩

theorem hasSubstr_append_right (n b : List Char) (h : hasSubstr n b = true) :
    ∀ a : List Char, hasSubstr n (a ++ b) = true := by
  intro a
  induction a with
  | nil => exact h
  | cons x xs ih =>
      show (leadsWith n (x :: (xs ++ b)) || hasSubstr n (xs ++ b)) = true
      rw [ih]
      exact Bool.or_true _

set_option maxRecDepth 20000 in
theorem clause_hasSubstr :
    hasSubstr "assumption".data
      (pyLower ("\n\nAssumptions & Clarifications:\n- ".data ++ ASSUMPTIONS_LINE)) = true := by
  decide

/-- Claim C10: `ensure_assumptions_clause` is idempotent, because the appended
clause itself contains the substring "assumption" case-insensitively. -/
theorem claim_C10 (s : List Char) :
    ensure_assumptions_clause (ensure_assumptions_clause s) = ensure_assumptions_clause s := by
  by_cases h0 : s = []
  · subst h0
    rfl
  by_cases h1 : hasSubstr "assumption".data (pyLower s) = true
  · have he : ensure_assumptions_clause s = s := by
      unfold ensure_assumptions_clause
      rw [if_neg h0]
      simp [h1]
    rw [he]
    exact he
  · have hb : hasSubstr "assumption".data (pyLower s) = false := by
      cases hh : hasSubstr "assumption".data (pyLower s) with
      | true => exact absurd hh h1
      | false => rfl
    have he : ensure_assumptions_clause s =
        pyRstrip s ++ "\n\nAssumptions & Clarifications:\n- ".data ++ ASSUMPTIONS_LINE := by
      unfold ensure_assumptions_clause
      rw [if_neg h0]
      simp [hb]
    have hne2 : pyRstrip s ++ "\n\nAssumptions & Clarifications:\n- ".data ++
        ASSUMPTIONS_LINE ≠ [] := by
      intro hx
      rcases List.append_eq_nil.mp hx with ⟨-, hL⟩
      exact (by decide : ASSUMPTIONS_LINE ≠ []) hL
    have hsub : hasSubstr "assumption".data
        (pyLower (pyRstrip s ++ "\n\nAssumptions & Clarifications:\n- ".data ++
          ASSUMPTIONS_LINE)) = true := by
      rw [List.append_assoc]
      unfold pyLower
      rw [List.map_append]
      exact hasSubstr_append_right _ _ clause_hasSubstr _
    rw [he]
    unfold ensure_assumptions_clause
    rw [if_neg hne2, hsub]
    simp
